import Mathlib

/-!
Shallow embedding of the candidengine renderer core (C sources under
`src/renderer/src` and `src/renderer/include/candid`) in Lean 4.

Modelling conventions:
* C `float` arithmetic is modelled over `ℝ` (the spec states geometric
  properties "within floating-point tolerance"; over `ℝ` they are exact).
* C unsigned integers are modelled as `Nat`; the `(uint16_t)` casts in the
  index generators are modelled explicitly as `% 65536`.
* Nullable pointers are modelled as `Option`; writing through an output
  pointer is modelled by returning the written value as `Option` (`none`
  means the caller's storage was left untouched).
* `malloc`/`calloc` failure is modelled by a Boolean allocation oracle; each
  generator also returns the number of heap blocks that are still live at
  return but not owned by the returned mesh (a leak counter), derived from
  the `free` calls on the failure path.
* An out-of-bounds heap read (undefined behavior in C) is modelled by an
  outer `Option`: `none` means the C code performs an out-of-bounds access.
* `Candid_MeshData.vertex_count` / `index_count` always equal the buffer
  lengths in the code under consideration, so they are modelled as the list
  lengths; `vertex_stride`, `layout` and `topology` are byte-layout and
  metadata fields no claim depends on, and are not modelled.
-/

/-- Result codes from `Candid_Result` in `types.h`. -/
inductive Candid_Result where
  | CANDID_SUCCESS
  | CANDID_ERROR_INVALID_ARGUMENT
  | CANDID_ERROR_OUT_OF_MEMORY
  | CANDID_ERROR_BACKEND_NOT_SUPPORTED
  | CANDID_ERROR_DEVICE_LOST
  | CANDID_ERROR_SHADER_COMPILATION
  | CANDID_ERROR_RESOURCE_CREATION
  | CANDID_ERROR_UNKNOWN
  deriving DecidableEq, Repr

export Candid_Result (CANDID_SUCCESS CANDID_ERROR_INVALID_ARGUMENT
  CANDID_ERROR_OUT_OF_MEMORY CANDID_ERROR_BACKEND_NOT_SUPPORTED
  CANDID_ERROR_RESOURCE_CREATION)

/-- Backend identifiers from `Candid_Backend` in `types.h`
(`CANDID_BACKEND_AUTO = 0`, then METAL, VULKAN, D3D12, WEBGPU;
`CANDID_BACKEND_COUNT = 5`). -/
inductive Candid_Backend where
  | CANDID_BACKEND_AUTO
  | CANDID_BACKEND_METAL
  | CANDID_BACKEND_VULKAN
  | CANDID_BACKEND_D3D12
  | CANDID_BACKEND_WEBGPU
  deriving DecidableEq, Repr

/-- Numeric value of the C enum constant. -/
def Candid_Backend.toNat : Candid_Backend → Nat
  | .CANDID_BACKEND_AUTO => 0
  | .CANDID_BACKEND_METAL => 1
  | .CANDID_BACKEND_VULKAN => 2
  | .CANDID_BACKEND_D3D12 => 3
  | .CANDID_BACKEND_WEBGPU => 4

/-- Index formats from `Candid_IndexFormat` in `types.h`. -/
inductive Candid_IndexFormat where
  | CANDID_INDEX_FORMAT_UINT16
  | CANDID_INDEX_FORMAT_UINT32
  deriving DecidableEq, Repr

noncomputable section

/-- `Candid_Vec2` from `types.h`. -/
structure Candid_Vec2 where
  x : ℝ
  y : ℝ

/-- `Candid_Vec3` from `types.h`. -/
structure Candid_Vec3 where
  x : ℝ
  y : ℝ
  z : ℝ

/-- `Candid_Vec4` from `types.h`. -/
structure Candid_Vec4 where
  x : ℝ
  y : ℝ
  z : ℝ
  w : ℝ

/-- `Candid_Color` from `types.h` (r, g, b, a floats). -/
structure Candid_Color where
  r : ℝ
  g : ℝ
  b : ℝ
  a : ℝ

instance : Inhabited Candid_Vec2 := ⟨⟨0, 0⟩⟩

instance : Inhabited Candid_Vec3 := ⟨⟨0, 0, 0⟩⟩

instance : Inhabited Candid_Vec4 := ⟨⟨0, 0, 0, 0⟩⟩

instance : Inhabited Candid_Color := ⟨⟨0, 0, 0, 0⟩⟩

/-- `Candid_Vertex` from `mesh.h`: position, normal, tangent (w = handedness),
two texcoords and a color. -/
structure Candid_Vertex where
  position : Candid_Vec3
  normal : Candid_Vec3
  tangent : Candid_Vec4
  texcoord0 : Candid_Vec2
  texcoord1 : Candid_Vec2
  color : Candid_Color

/-- Zero-initialized vertex, as produced by `calloc`. -/
def zeroVertex : Candid_Vertex :=
  { position := ⟨0, 0, 0⟩, normal := ⟨0, 0, 0⟩, tangent := ⟨0, 0, 0, 0⟩,
    texcoord0 := ⟨0, 0⟩, texcoord1 := ⟨0, 0⟩, color := ⟨0, 0, 0, 0⟩ }

instance : Inhabited Candid_Vertex := ⟨zeroVertex⟩

/-- `Candid_MeshData` from `mesh.h`. The `vertices` and `indices` pointers are
`Option` lists (`none` = NULL); `vertex_count` and `index_count` are the list
lengths (see the module comment). Index values are `Nat` regardless of
`index_format`; the 16-bit generators apply `% 65536` at each cast site. -/
structure Candid_MeshData where
  vertices : Option (List Candid_Vertex)
  indices : Option (List Nat)
  index_format : Candid_IndexFormat

/-- Vertex count of a mesh (length of the vertex buffer). -/
def Candid_MeshData.vertex_count (m : Candid_MeshData) : Nat :=
  (m.vertices.getD []).length

/-- Index count of a mesh (length of the index buffer). -/
def Candid_MeshData.index_count (m : Candid_MeshData) : Nat :=
  (m.indices.getD []).length

/-- `Candid_AABB`: min/max corners. -/
structure Candid_AABB where
  min : Candid_Vec3
  max : Candid_Vec3

/-- The `(uint16_t)` cast applied at each index-write site of the generators. -/
def u16cast (n : Nat) : Nat := n % 65536

/-- Vector dot product, written as in the C expressions. -/
def dot3 (a b : Candid_Vec3) : ℝ := a.x * b.x + a.y * b.y + a.z * b.z

/-- Vector cross product, written as in the C expressions. -/
def cross3 (a b : Candid_Vec3) : Candid_Vec3 :=
  ⟨a.y * b.z - a.z * b.y, a.z * b.x - a.x * b.z, a.x * b.y - a.y * b.x⟩

/-- Componentwise difference `a - b`. -/
def sub3 (a b : Candid_Vec3) : Candid_Vec3 := ⟨a.x - b.x, a.y - b.y, a.z - b.z⟩

/-- Euclidean length `sqrtf(x*x + y*y + z*z)` as used throughout `mesh.c`. -/
def norm3 (v : Candid_Vec3) : ℝ := Real.sqrt (v.x * v.x + v.y * v.y + v.z * v.z)

/-!
## Cube generator (`candid_mesh_create_cube`, mesh.c lines 69-143)
-/

/-- The `faces[6]` table of `candid_mesh_create_cube`: per face, the shared
normal and the four corner positions (`h = size * 0.5f`). -/
def cubeFaceData (h : ℝ) : List (Candid_Vec3 × List Candid_Vec3) :=
  [ (⟨0, 0, 1⟩, [⟨-h, -h, h⟩, ⟨h, -h, h⟩, ⟨h, h, h⟩, ⟨-h, h, h⟩]),
    (⟨0, 0, -1⟩, [⟨h, -h, -h⟩, ⟨-h, -h, -h⟩, ⟨-h, h, -h⟩, ⟨h, h, -h⟩]),
    (⟨1, 0, 0⟩, [⟨h, -h, h⟩, ⟨h, -h, -h⟩, ⟨h, h, -h⟩, ⟨h, h, h⟩]),
    (⟨-1, 0, 0⟩, [⟨-h, -h, -h⟩, ⟨-h, -h, h⟩, ⟨-h, h, h⟩, ⟨-h, h, -h⟩]),
    (⟨0, 1, 0⟩, [⟨-h, h, h⟩, ⟨h, h, h⟩, ⟨h, h, -h⟩, ⟨-h, h, -h⟩]),
    (⟨0, -1, 0⟩, [⟨-h, -h, -h⟩, ⟨h, -h, -h⟩, ⟨h, -h, h⟩, ⟨-h, -h, h⟩]) ]

/-- The `uvs[4]` table `{(0,1),(1,1),(1,0),(0,0)}`. -/
def cubeUVs : List Candid_Vec2 := [⟨0, 1⟩, ⟨1, 1⟩, ⟨1, 0⟩, ⟨0, 0⟩]

/-- One cube vertex: position and per-face normal from the tables, texcoord0
from `uvs`, color set to `(1,1,1,1)`; the remaining fields keep the zero
value from `calloc`. -/
def cubeVertex (normal : Candid_Vec3) (pos : Candid_Vec3) (uv : Candid_Vec2) :
    Candid_Vertex :=
  { zeroVertex with
    position := pos, normal := normal, texcoord0 := uv, color := ⟨1, 1, 1, 1⟩ }

/-- The 24-entry vertex buffer of the cube (vertex loop, 4 vertices per face). -/
def cubeVertices (h : ℝ) : List Candid_Vertex :=
  (cubeFaceData h).flatMap fun fd =>
    (fd.2.zip cubeUVs).map fun pu => cubeVertex fd.1 pu.1 pu.2

/-- The 36-entry index buffer of the cube: per face `base = face * 4`, two
triangles `(base, base+1, base+2)` and `(base, base+2, base+3)`, each value
cast to `uint16_t`. -/
def cubeIndices : List Nat :=
  (List.range 6).flatMap fun face =>
    let base := face * 4
    [u16cast (base + 0), u16cast (base + 1), u16cast (base + 2),
     u16cast (base + 0), u16cast (base + 2), u16cast (base + 3)]

/-- `candid_mesh_create_cube(size, out)`. `outIsNull` models `out == NULL`;
`alloc` is the allocation oracle for the `calloc`/`malloc` pair; the result
carries the `Candid_Result`, the mesh written through `out` (or `none`), and
the number of leaked heap blocks. -/
def candid_mesh_create_cube (size : ℝ) (outIsNull : Bool)
    (alloc : Bool × Bool) : Candid_Result × Option Candid_MeshData × Nat :=
  if outIsNull then (CANDID_ERROR_INVALID_ARGUMENT, none, 0)
  else
    let h := size * 0.5
    let verticesOk := alloc.1
    let indicesOk := alloc.2
    let allocated := (if verticesOk then 1 else 0) + (if indicesOk then 1 else 0)
    if ¬verticesOk ∨ ¬indicesOk then
      -- free(vertices); free(indices): free on NULL is a no-op
      (CANDID_ERROR_OUT_OF_MEMORY, none,
        allocated - (if verticesOk then 1 else 0) - (if indicesOk then 1 else 0))
    else
      (CANDID_SUCCESS,
        some { vertices := some (cubeVertices h),
               indices := some cubeIndices,
               index_format := .CANDID_INDEX_FORMAT_UINT16 },
        allocated - 2)

/-!
## AABB (`candid_mesh_calculate_aabb`, mesh.c lines 663-690)
-/

/-- One loop iteration of `candid_mesh_calculate_aabb`: the six
`if (p.c < out->min.c) ...` / `if (p.c > out->max.c) ...` updates. -/
def aabbUpdate (box : Candid_AABB) (p : Candid_Vec3) : Candid_AABB :=
  { min := ⟨if p.x < box.min.x then p.x else box.min.x,
            if p.y < box.min.y then p.y else box.min.y,
            if p.z < box.min.z then p.z else box.min.z⟩,
    max := ⟨if p.x > box.max.x then p.x else box.max.x,
            if p.y > box.max.y then p.y else box.max.y,
            if p.z > box.max.z then p.z else box.max.z⟩ }

/-- `candid_mesh_calculate_aabb(data, out)`: returns `InvalidArgument` when the
vertex pointer is NULL, otherwise seeds min/max with vertex 0 and scans the
remaining vertices. The function does NOT check `vertex_count`; with a
non-null pointer and zero vertices the seed read `verts[0]` goes out of
bounds, modelled by the outer `none`. The C `!data`/`!out` argument guards
are trivially satisfied here since Lean passes values. -/
def candid_mesh_calculate_aabb (data : Candid_MeshData) :
    Option (Candid_Result × Option Candid_AABB) :=
  match data.vertices with
  | none => some (CANDID_ERROR_INVALID_ARGUMENT, none)
  | some [] => none
  | some (v0 :: rest) =>
      some (CANDID_SUCCESS,
        some (rest.foldl (fun box v => aabbUpdate box v.position)
          { min := v0.position, max := v0.position }))

/-!
## Sphere generator (`candid_mesh_create_sphere`, mesh.c lines 149-223)
-/

/-- One sphere vertex for latitude band `ring` and longitude step `seg`:
`phi = pi * ring / rings`, `theta = 2 * pi * seg / segments`,
direction `(cos theta * sin phi, cos phi, sin theta * sin phi)`, position
scaled by `radius`, normal the unscaled direction. -/
def sphereVertex (radius : ℝ) (segments rings ring seg : Nat) : Candid_Vertex :=
  let phi := Real.pi * (ring : ℝ) / (rings : ℝ)
  let sin_phi := Real.sin phi
  let cos_phi := Real.cos phi
  let theta := 2 * Real.pi * (seg : ℝ) / (segments : ℝ)
  let sin_theta := Real.sin theta
  let cos_theta := Real.cos theta
  let x := cos_theta * sin_phi
  let y := cos_phi
  let z := sin_theta * sin_phi
  { zeroVertex with
    position := ⟨radius * x, radius * y, radius * z⟩,
    normal := ⟨x, y, z⟩,
    texcoord0 := ⟨(seg : ℝ) / (segments : ℝ), (ring : ℝ) / (rings : ℝ)⟩,
    color := ⟨1, 1, 1, 1⟩ }

/-- The sphere vertex buffer: `ring` from 0 to `rings`, `seg` from 0 to
`segments` (both inclusive). -/
def sphereVertices (radius : ℝ) (segments rings : Nat) : List Candid_Vertex :=
  (List.range (rings + 1)).flatMap fun ring =>
    (List.range (segments + 1)).map fun seg =>
      sphereVertex radius segments rings ring seg

/-- The sphere index buffer: per quad `a = ring * (segments+1) + seg`,
`b = a + segments + 1`, `c = a + 1`, `d = b + 1`, triangles
`(a,b,c)` and `(c,b,d)`; each value cast to `uint16_t`. -/
def sphereIndices (segments rings : Nat) : List Nat :=
  (List.range rings).flatMap fun ring =>
    (List.range segments).flatMap fun seg =>
      let a := u16cast (ring * (segments + 1) + seg)
      let b := u16cast (a + segments + 1)
      let c := u16cast (a + 1)
      let d := u16cast (b + 1)
      [a, b, c, c, b, d]

/-- `candid_mesh_create_sphere(radius, segments, rings, out)`: rejects
`out == NULL`, `segments < 3` or `rings < 2` with `InvalidArgument`,
otherwise allocates and fills `(segments+1)*(rings+1)` vertices and
`segments*rings*6` indices. -/
def candid_mesh_create_sphere (radius : ℝ) (segments rings : Nat)
    (outIsNull : Bool) (alloc : Bool × Bool) :
    Candid_Result × Option Candid_MeshData × Nat :=
  if outIsNull ∨ segments < 3 ∨ rings < 2 then
    (CANDID_ERROR_INVALID_ARGUMENT, none, 0)
  else
    let verticesOk := alloc.1
    let indicesOk := alloc.2
    let allocated := (if verticesOk then 1 else 0) + (if indicesOk then 1 else 0)
    if ¬verticesOk ∨ ¬indicesOk then
      (CANDID_ERROR_OUT_OF_MEMORY, none,
        allocated - (if verticesOk then 1 else 0) - (if indicesOk then 1 else 0))
    else
      (CANDID_SUCCESS,
        some { vertices := some (sphereVertices radius segments rings),
               indices := some (sphereIndices segments rings),
               index_format := .CANDID_INDEX_FORMAT_UINT16 },
        allocated - 2)

/-!
## Plane generator (`candid_mesh_create_plane`, mesh.c lines 229-301)
-/

/-- One plane vertex at grid cell `(x, y)`: `tx = x / subdivisions_x`,
`ty = y / subdivisions_y`, position `(-half_w + tx*width, 0, -half_h + ty*height)`,
normal `(0,1,0)`. -/
def planeVertex (width height : ℝ) (subdivisions_x subdivisions_y x y : Nat) :
    Candid_Vertex :=
  let tx := (x : ℝ) / (subdivisions_x : ℝ)
  let ty := (y : ℝ) / (subdivisions_y : ℝ)
  { zeroVertex with
    position := ⟨-(width * 0.5) + tx * width, 0, -(height * 0.5) + ty * height⟩,
    normal := ⟨0, 1, 0⟩,
    texcoord0 := ⟨tx, ty⟩,
    color := ⟨1, 1, 1, 1⟩ }

/-- The plane vertex buffer: `y` over `verts_y = subdivisions_y + 1` rows,
`x` over `verts_x = subdivisions_x + 1` columns. -/
def planeVertices (width height : ℝ) (subdivisions_x subdivisions_y : Nat) :
    List Candid_Vertex :=
  (List.range (subdivisions_y + 1)).flatMap fun y =>
    (List.range (subdivisions_x + 1)).map fun x =>
      planeVertex width height subdivisions_x subdivisions_y x y

/-- The plane index buffer: per cell `a = y * verts_x + x`, `b = a + verts_x`,
`c = a + 1`, `d = b + 1`, triangles `(a,b,c)` and `(c,b,d)`. -/
def planeIndices (subdivisions_x subdivisions_y : Nat) : List Nat :=
  (List.range subdivisions_y).flatMap fun y =>
    (List.range subdivisions_x).flatMap fun x =>
      let a := u16cast (y * (subdivisions_x + 1) + x)
      let b := u16cast (a + (subdivisions_x + 1))
      let c := u16cast (a + 1)
      let d := u16cast (b + 1)
      [a, b, c, c, b, d]

/-- `candid_mesh_create_plane(width, height, subdivisions_x, subdivisions_y, out)`. -/
def candid_mesh_create_plane (width height : ℝ)
    (subdivisions_x subdivisions_y : Nat) (outIsNull : Bool)
    (alloc : Bool × Bool) : Candid_Result × Option Candid_MeshData × Nat :=
  if outIsNull ∨ subdivisions_x < 1 ∨ subdivisions_y < 1 then
    (CANDID_ERROR_INVALID_ARGUMENT, none, 0)
  else
    let verticesOk := alloc.1
    let indicesOk := alloc.2
    let allocated := (if verticesOk then 1 else 0) + (if indicesOk then 1 else 0)
    if ¬verticesOk ∨ ¬indicesOk then
      (CANDID_ERROR_OUT_OF_MEMORY, none,
        allocated - (if verticesOk then 1 else 0) - (if indicesOk then 1 else 0))
    else
      (CANDID_SUCCESS,
        some { vertices := some (planeVertices width height subdivisions_x subdivisions_y),
               indices := some (planeIndices subdivisions_x subdivisions_y),
               index_format := .CANDID_INDEX_FORMAT_UINT16 },
        allocated - 2)

/-!
## Cylinder generator (`candid_mesh_create_cylinder`, mesh.c lines 307-462)
-/

/-- One side-ring vertex of the cylinder at height `ypos`
(`theta = 2 * pi * s / segments`), with the outward side normal
`(cos theta, 0, sin theta)`; `vcoord` is 0 on the top ring, 1 on the bottom. -/
def cylSideVertex (radius ypos : ℝ) (segments s : Nat) (vcoord : ℝ) :
    Candid_Vertex :=
  let theta := 2 * Real.pi * (s : ℝ) / (segments : ℝ)
  let cos_t := Real.cos theta
  let sin_t := Real.sin theta
  { zeroVertex with
    position := ⟨radius * cos_t, ypos, radius * sin_t⟩,
    normal := ⟨cos_t, 0, sin_t⟩,
    texcoord0 := ⟨(s : ℝ) / (segments : ℝ), vcoord⟩,
    color := ⟨1, 1, 1, 1⟩ }

/-- A cap-center vertex of the cylinder (`ny = 1` top, `ny = -1` bottom). -/
def cylCenterVertex (ypos ny : ℝ) : Candid_Vertex :=
  { zeroVertex with
    position := ⟨0, ypos, 0⟩,
    normal := ⟨0, ny, 0⟩,
    texcoord0 := ⟨0.5, 0.5⟩,
    color := ⟨1, 1, 1, 1⟩ }

/-- One top-cap ring vertex: normal `(0,1,0)`, texcoords
`(0.5 + 0.5*cos theta, 0.5 + 0.5*sin theta)`. -/
def cylTopCapVertex (radius half_h : ℝ) (segments s : Nat) : Candid_Vertex :=
  let theta := 2 * Real.pi * (s : ℝ) / (segments : ℝ)
  let cos_t := Real.cos theta
  let sin_t := Real.sin theta
  { zeroVertex with
    position := ⟨radius * cos_t, half_h, radius * sin_t⟩,
    normal := ⟨0, 1, 0⟩,
    texcoord0 := ⟨0.5 + 0.5 * cos_t, 0.5 + 0.5 * sin_t⟩,
    color := ⟨1, 1, 1, 1⟩ }

/-- One bottom-cap ring vertex: normal `(0,-1,0)`, texcoords
`(0.5 + 0.5*cos theta, 0.5 - 0.5*sin theta)`. -/
def cylBottomCapVertex (radius half_h : ℝ) (segments s : Nat) : Candid_Vertex :=
  let theta := 2 * Real.pi * (s : ℝ) / (segments : ℝ)
  let cos_t := Real.cos theta
  let sin_t := Real.sin theta
  { zeroVertex with
    position := ⟨radius * cos_t, -half_h, radius * sin_t⟩,
    normal := ⟨0, -1, 0⟩,
    texcoord0 := ⟨0.5 + 0.5 * cos_t, 0.5 - 0.5 * sin_t⟩,
    color := ⟨1, 1, 1, 1⟩ }

/-- The cylinder vertex buffer, in the generation order of the source:
top side ring, bottom side ring, top cap center, top cap ring, bottom cap
center, bottom cap ring (`half_h = height * 0.5f`); each ring has
`segments + 1` vertices, for `4*(segments+1) + 2` in total. -/
def cylinderVertices (radius height : ℝ) (segments : Nat) :
    List Candid_Vertex :=
  let half_h := height * 0.5
  ((List.range (segments + 1)).map fun s => cylSideVertex radius half_h segments s 0)
  ++ ((List.range (segments + 1)).map fun s => cylSideVertex radius (-half_h) segments s 1)
  ++ [cylCenterVertex half_h 1]
  ++ ((List.range (segments + 1)).map fun s => cylTopCapVertex radius half_h segments s)
  ++ [cylCenterVertex (-half_h) (-1)]
  ++ ((List.range (segments + 1)).map fun s => cylBottomCapVertex radius half_h segments s)

/-- The side-quad indices of the cylinder: per segment `a = s`,
`b = s + ring_verts`, `c = s + 1`, `d = s + ring_verts + 1` with
`ring_verts = segments + 1`, triangles `(a,b,c)` and `(c,b,d)`. -/
def cylinderSideIndices (segments : Nat) : List Nat :=
  (List.range segments).flatMap fun s =>
    [u16cast s, u16cast (s + (segments + 1)), u16cast (s + 1),
     u16cast (s + 1), u16cast (s + (segments + 1)),
     u16cast (s + (segments + 1) + 1)]

/-- The top-cap fan indices: around `top_center = 2*(segments+1)`, with
`top_ring_start = top_center + 1`. -/
def cylinderTopCapIndices (segments : Nat) : List Nat :=
  (List.range segments).flatMap fun s =>
    [u16cast (2 * (segments + 1)), u16cast (2 * (segments + 1) + 1 + s + 1),
     u16cast (2 * (segments + 1) + 1 + s)]

/-- The bottom-cap fan indices: around
`bottom_center = top_ring_start + ring_verts = 3*(segments+1) + 1`, with
`bottom_ring_start = bottom_center + 1`. -/
def cylinderBottomCapIndices (segments : Nat) : List Nat :=
  (List.range segments).flatMap fun s =>
    [u16cast (3 * (segments + 1) + 1), u16cast (3 * (segments + 1) + 1 + 1 + s),
     u16cast (3 * (segments + 1) + 1 + 1 + s + 1)]

/-- The cylinder index buffer, in the generation order of the source: side
quads, top cap fan, bottom cap fan. -/
def cylinderIndices (segments : Nat) : List Nat :=
  cylinderSideIndices segments ++ cylinderTopCapIndices segments
    ++ cylinderBottomCapIndices segments

/-- `candid_mesh_create_cylinder(radius, height, segments, out)`. -/
def candid_mesh_create_cylinder (radius height : ℝ) (segments : Nat)
    (outIsNull : Bool) (alloc : Bool × Bool) :
    Candid_Result × Option Candid_MeshData × Nat :=
  if outIsNull ∨ segments < 3 then (CANDID_ERROR_INVALID_ARGUMENT, none, 0)
  else
    let verticesOk := alloc.1
    let indicesOk := alloc.2
    let allocated := (if verticesOk then 1 else 0) + (if indicesOk then 1 else 0)
    if ¬verticesOk ∨ ¬indicesOk then
      (CANDID_ERROR_OUT_OF_MEMORY, none,
        allocated - (if verticesOk then 1 else 0) - (if indicesOk then 1 else 0))
    else
      (CANDID_SUCCESS,
        some { vertices := some (cylinderVertices radius height segments),
               indices := some (cylinderIndices segments),
               index_format := .CANDID_INDEX_FORMAT_UINT16 },
        allocated - 2)

/-!
## Normal recomputation (`candid_mesh_calculate_normals`, mesh.c lines 476-545)

The C function supports 16- and 32-bit index buffers by reading both through
the same `uint32_t` triple; the model carries `Nat` index values for either
format, so the two read paths coincide. The triangle loop consumes index
triples; a trailing partial triple (index_count not divisible by 3) would
read past the index buffer in C and is ignored by the model.
-/

/-- The reset loop: every vertex normal is set to `(0,0,0)`. -/
def zeroNormals (vs : List Candid_Vertex) : List Candid_Vertex :=
  vs.map fun v => { v with normal := ⟨0, 0, 0⟩ }

/-- One `verts[i].normal += n` accumulation (out-of-range writes, undefined
in C, are no-ops in the list model). -/
def addToNormal (vs : List Candid_Vertex) (i : Nat) (n : Candid_Vec3) :
    List Candid_Vertex :=
  let v := vs.getD i default
  vs.set i { v with
             normal := ⟨v.normal.x + n.x, v.normal.y + n.y, v.normal.z + n.z⟩ }

/-- The face-normal accumulation loop: for each index triple `(i0,i1,i2)`,
the unnormalized cross product of the edge vectors is added to the three
vertex normals. -/
def accumFaceNormals : List Candid_Vertex → List Nat → List Candid_Vertex
  | vs, i0 :: i1 :: i2 :: rest =>
      let p0 := (vs.getD i0 default).position
      let p1 := (vs.getD i1 default).position
      let p2 := (vs.getD i2 default).position
      let n := cross3 (sub3 p1 p0) (sub3 p2 p0)
      accumFaceNormals (addToNormal (addToNormal (addToNormal vs i0 n) i1 n) i2 n) rest
  | vs, _ => vs

/-- The normalization loop body: scale the normal to unit length if its
length exceeds `1e-6`, leave it unchanged otherwise. -/
def normalizeNormal (v : Candid_Vertex) : Candid_Vertex :=
  let n := v.normal
  let len := norm3 n
  if len > 1e-6 then { v with normal := ⟨n.x / len, n.y / len, n.z / len⟩ }
  else v

/-- The three passes of `candid_mesh_calculate_normals` on the vertex buffer. -/
def recomputeNormals (idx : List Nat) (vs : List Candid_Vertex) :
    List Candid_Vertex :=
  (accumFaceNormals (zeroNormals vs) idx).map normalizeNormal

/-- `candid_mesh_calculate_normals(data)`: `InvalidArgument` when the vertex
or index pointer is NULL, otherwise rewrites the normals in place. -/
def candid_mesh_calculate_normals (data : Candid_MeshData) :
    Candid_Result × Candid_MeshData :=
  match data.vertices, data.indices with
  | some vs, some idx =>
      (CANDID_SUCCESS, { data with vertices := some (recomputeNormals idx vs) })
  | _, _ => (CANDID_ERROR_INVALID_ARGUMENT, data)

/-!
## Tangent computation (`candid_mesh_calculate_tangents`, mesh.c lines 547-661)
-/

/-- One `tan[i] += d` accumulation on a temporary accumulator array. -/
def addVec3At (a : List Candid_Vec3) (i : Nat) (d : Candid_Vec3) :
    List Candid_Vec3 :=
  let v := a.getD i default
  a.set i ⟨v.x + d.x, v.y + d.y, v.z + d.z⟩

/-- The per-triangle tangent/bitangent accumulation loop: UV-space edge
deltas, determinant `r = s1*t2 - s2*t1` (replaced by 1 when `|r| < 1e-6`),
then `sdir`/`tdir` scaled by `1/r` and added to the three vertices'
accumulators. -/
def accumTangents (vs : List Candid_Vertex) :
    List Nat → List Candid_Vec3 × List Candid_Vec3 →
    List Candid_Vec3 × List Candid_Vec3
  | i0 :: i1 :: i2 :: rest, (tan1, tan2) =>
      let p0 := (vs.getD i0 default).position
      let p1 := (vs.getD i1 default).position
      let p2 := (vs.getD i2 default).position
      let uv0 := (vs.getD i0 default).texcoord0
      let uv1 := (vs.getD i1 default).texcoord0
      let uv2 := (vs.getD i2 default).texcoord0
      let x1 := p1.x - p0.x
      let y1 := p1.y - p0.y
      let z1 := p1.z - p0.z
      let x2 := p2.x - p0.x
      let y2 := p2.y - p0.y
      let z2 := p2.z - p0.z
      let s1 := uv1.x - uv0.x
      let t1 := uv1.y - uv0.y
      let s2 := uv2.x - uv0.x
      let t2 := uv2.y - uv0.y
      let r0 := s1 * t2 - s2 * t1
      let r1 := if |r0| < 1e-6 then 1 else r0
      let r := 1 / r1
      let sdir : Candid_Vec3 :=
        ⟨(t2 * x1 - t1 * x2) * r, (t2 * y1 - t1 * y2) * r, (t2 * z1 - t1 * z2) * r⟩
      let tdir : Candid_Vec3 :=
        ⟨(s1 * x2 - s2 * x1) * r, (s1 * y2 - s2 * y1) * r, (s1 * z2 - s2 * z1) * r⟩
      accumTangents vs rest
        (addVec3At (addVec3At (addVec3At tan1 i0 sdir) i1 sdir) i2 sdir,
         addVec3At (addVec3At (addVec3At tan2 i0 tdir) i1 tdir) i2 tdir)
  | _, acc => acc

/-- The final per-vertex tangent: Gram-Schmidt orthogonalization of the
accumulated tangent `t` against the normal `n`, normalization when the
length exceeds `1e-6`, and handedness `w` from the sign of
`cross(n, t) . tan2`. -/
def tangentFor (n t t2v : Candid_Vec3) : Candid_Vec4 :=
  let d := dot3 n t
  let tangent : Candid_Vec3 := ⟨t.x - n.x * d, t.y - n.y * d, t.z - n.z * d⟩
  let len := norm3 tangent
  let tn : Candid_Vec3 :=
    if len > 1e-6 then ⟨tangent.x / len, tangent.y / len, tangent.z / len⟩
    else tangent
  let cr := cross3 n t
  let w : ℝ := if dot3 cr t2v < 0 then -1 else 1
  ⟨tn.x, tn.y, tn.z, w⟩

/-- The final loop of `candid_mesh_calculate_tangents` over all vertices. -/
def applyTangents (vs : List Candid_Vertex) (tan1 tan2 : List Candid_Vec3) :
    List Candid_Vertex :=
  (List.range vs.length).map fun i =>
    let v := vs.getD i default
    { v with tangent := tangentFor v.normal (tan1.getD i default) (tan2.getD i default) }

/-- `candid_mesh_calculate_tangents(data)`: `InvalidArgument` on NULL vertex
or index pointers; `OutOfMemory` (with the mesh untouched and both
temporaries freed) when either `calloc` fails; otherwise accumulates
per-triangle tangents and bitangents into zero-initialized temporaries and
writes each vertex's final tangent. -/
def candid_mesh_calculate_tangents (data : Candid_MeshData)
    (alloc : Bool × Bool) : Candid_Result × Candid_MeshData :=
  match data.vertices, data.indices with
  | some vs, some idx =>
      if ¬alloc.1 ∨ ¬alloc.2 then (CANDID_ERROR_OUT_OF_MEMORY, data)
      else
        let tz : List Candid_Vec3 := List.replicate vs.length ⟨0, 0, 0⟩
        let acc := accumTangents vs idx (tz, tz)
        (CANDID_SUCCESS, { data with vertices := some (applyTangents vs acc.1 acc.2) })
  | _, _ => (CANDID_ERROR_INVALID_ARGUMENT, data)

end

/-!
## Backend registry (`backend.c`)

The registry's only state is the static table `s_backends`, populated once by
`init_backends` under compile-time platform guards: on `__APPLE__` the Metal
interface, under `CANDID_VULKAN_SUPPORT` the Vulkan interface; the D3D12
registration is commented out even on `_WIN32`. Every public entry point
calls `init_backends` first, so every observable registry state is the
post-initialization table for some platform configuration; `Platform` ranges
over those configurations.
-/

/-- Compile-time platform configuration (`__APPLE__`,
`CANDID_VULKAN_SUPPORT`, `_WIN32`). -/
structure Platform where
  apple : Bool
  vulkan_support : Bool
  win32 : Bool
  deriving DecidableEq, Repr

/-- The statically-defined backend interface tables pointed to by the
registry (`candid_metal_backend`, `candid_vulkan_backend`). -/
inductive BackendIfaceRef where
  | candid_metal_backend
  | candid_vulkan_backend
  deriving DecidableEq, Repr

/-- The `s_backends` table after `init_backends`: Metal iff `__APPLE__`,
Vulkan iff `CANDID_VULKAN_SUPPORT`; all other slots (including D3D12, whose
registration is commented out) stay NULL. -/
def s_backends (p : Platform) : Candid_Backend → Option BackendIfaceRef
  | .CANDID_BACKEND_METAL =>
      if p.apple then some .candid_metal_backend else none
  | .CANDID_BACKEND_VULKAN =>
      if p.vulkan_support then some .candid_vulkan_backend else none
  | _ => none

/-- `candid_backend_get_preferred()`: platform-ordered checks, each compiled
only under its platform guard; `AUTO` when nothing is available. -/
def candid_backend_get_preferred (p : Platform) : Candid_Backend :=
  if p.apple ∧ (s_backends p .CANDID_BACKEND_METAL).isSome then
    .CANDID_BACKEND_METAL
  else if p.vulkan_support ∧ (s_backends p .CANDID_BACKEND_VULKAN).isSome then
    .CANDID_BACKEND_VULKAN
  else if p.win32 ∧ (s_backends p .CANDID_BACKEND_D3D12).isSome then
    .CANDID_BACKEND_D3D12
  else
    .CANDID_BACKEND_AUTO

/-- `candid_backend_get(backend)`: resolves `AUTO` through
`candid_backend_get_preferred`, then indexes the table. The C bound check
`backend >= CANDID_BACKEND_COUNT` cannot fire for enum-typed arguments. -/
def candid_backend_get (p : Platform) (backend : Candid_Backend) :
    Option BackendIfaceRef :=
  let b := if backend = .CANDID_BACKEND_AUTO then candid_backend_get_preferred p
           else backend
  s_backends p b

/-- `candid_backend_is_available(backend)`. -/
def candid_backend_is_available (p : Platform) (backend : Candid_Backend) :
    Bool :=
  if backend = .CANDID_BACKEND_AUTO then
    candid_backend_get_preferred p ≠ .CANDID_BACKEND_AUTO
  else
    (s_backends p backend).isSome

/-- Table slots 1 to `CANDID_BACKEND_COUNT - 1` in ascending enum order, as
scanned by the `for (i = 1; i < CANDID_BACKEND_COUNT; ...)` loop. -/
def backendScanOrder : List Candid_Backend :=
  [.CANDID_BACKEND_METAL, .CANDID_BACKEND_VULKAN, .CANDID_BACKEND_D3D12,
   .CANDID_BACKEND_WEBGPU]

/-- `candid_backend_get_available(out, max_count)`: the sequence of backends
written into `out` — the registered slots in ascending enum order, stopping
once `max_count` entries were produced. The returned count is the length of
this list. -/
def candid_backend_get_available (p : Platform) (max_count : Nat) :
    List Candid_Backend :=
  (backendScanOrder.filter fun b => (s_backends p b).isSome).take max_count

/-!
## Renderer façade (`renderer.c`)

The façade holds one backend interface pointer and one device handle and
forwards resource and frame calls to them. The backend interface is opaque
to the façade, so each forwarding operation is modelled as taking the
dispatched backend operation as a function argument and reporting, next to
its result, whether the backend was invoked (`false` = no backend call).
A NULL `Candid_Renderer*` argument is `none`.
-/

/-- `Candid_Mat4` (16 floats, column-major; `mk` in index order `m[0]`
through `m[15]`). -/
structure Candid_Mat4 where
  m0 : ℝ
  m1 : ℝ
  m2 : ℝ
  m3 : ℝ
  m4 : ℝ
  m5 : ℝ
  m6 : ℝ
  m7 : ℝ
  m8 : ℝ
  m9 : ℝ
  m10 : ℝ
  m11 : ℝ
  m12 : ℝ
  m13 : ℝ
  m14 : ℝ
  m15 : ℝ

/-- `Candid_Camera` from `renderer.h` (`fov_y` in radians; `aspect_ratio`
0 = auto from surface). -/
structure Candid_Camera where
  position : Candid_Vec3
  target : Candid_Vec3
  up : Candid_Vec3
  fov_y : ℝ
  near_plane : ℝ
  far_plane : ℝ
  aspect_ratio : ℝ

/-- `Candid_BuiltinShader` from `shader.h`. -/
inductive Candid_BuiltinShader where
  | CANDID_SHADER_UNLIT
  | CANDID_SHADER_BLINN_PHONG
  | CANDID_SHADER_PBR_METALLIC
  | CANDID_SHADER_PBR_SPECULAR
  | CANDID_SHADER_SKYBOX
  | CANDID_SHADER_SHADOW_MAP
  | CANDID_SHADER_POST_TONEMAP
  | CANDID_SHADER_POST_FXAA
  | CANDID_SHADER_DEBUG_NORMALS
  | CANDID_SHADER_DEBUG_UV
  deriving DecidableEq, Repr

/-- Mutable state of `struct Candid_Renderer` (the borrowed backend
interface pointer and the opaque device handle are modelled at each call
site, see the section comment). -/
structure Candid_Renderer where
  backend_type : Candid_Backend
  clear_color : Candid_Color
  view_matrix : Candid_Mat4
  projection_matrix : Candid_Mat4
  time : ℝ
  delta_time : ℝ
  frame_count : Nat
  width : Nat
  height : Nat

noncomputable section

/-- `candid_renderer_destroy`: NULL is a no-op; otherwise
`backend->device_destroy` is called (the stored backend and device pointers
of a created renderer are non-null). Returns whether the backend was
called. -/
def candid_renderer_destroy (renderer : Option Candid_Renderer) : Bool :=
  match renderer with
  | none => false
  | some _ => true

/-- `candid_renderer_resize`: guards NULL, stores the new surface size, then
forwards to `backend->swapchain_resize`. -/
def candid_renderer_resize (renderer : Option Candid_Renderer)
    (width height : Nat) (swapchain_resize : Nat → Nat → Candid_Result) :
    Option Candid_Renderer × Candid_Result × Bool :=
  match renderer with
  | none => (none, CANDID_ERROR_INVALID_ARGUMENT, false)
  | some r =>
      (some { r with width := width, height := height },
       swapchain_resize width height, true)

/-- `candid_renderer_get_backend`: `AUTO` on NULL. -/
def candid_renderer_get_backend : Option Candid_Renderer → Candid_Backend
  | none => .CANDID_BACKEND_AUTO
  | some r => r.backend_type

/-- `candid_renderer_get_limits`: `InvalidArgument` when the renderer or the
output pointer is NULL, otherwise forwards to `backend->device_get_limits`. -/
def candid_renderer_get_limits (renderer : Option Candid_Renderer)
    (outIsNull : Bool) (device_get_limits : Candid_Result) :
    Candid_Result × Bool :=
  match renderer with
  | none => (CANDID_ERROR_INVALID_ARGUMENT, false)
  | some _ =>
      if outIsNull then (CANDID_ERROR_INVALID_ARGUMENT, false)
      else (device_get_limits, true)

/-- `candid_renderer_create_buffer`: forwards the descriptor to
`backend->buffer_create` unless the renderer is NULL. -/
def candid_renderer_create_buffer {α : Type} (renderer : Option Candid_Renderer)
    (desc : α) (buffer_create : α → Candid_Result) : Candid_Result × Bool :=
  match renderer with
  | none => (CANDID_ERROR_INVALID_ARGUMENT, false)
  | some _ => (buffer_create desc, true)

/-- `candid_renderer_destroy_buffer`: forwards to `backend->buffer_destroy`
unless the renderer is NULL (returns whether the backend was called). -/
def candid_renderer_destroy_buffer (renderer : Option Candid_Renderer) : Bool :=
  match renderer with
  | none => false
  | some _ => true

/-- `candid_renderer_create_texture` (same shape as `create_buffer`). -/
def candid_renderer_create_texture {α : Type} (renderer : Option Candid_Renderer)
    (desc : α) (texture_create : α → Candid_Result) : Candid_Result × Bool :=
  match renderer with
  | none => (CANDID_ERROR_INVALID_ARGUMENT, false)
  | some _ => (texture_create desc, true)

/-- `candid_renderer_destroy_texture`. -/
def candid_renderer_destroy_texture (renderer : Option Candid_Renderer) : Bool :=
  match renderer with
  | none => false
  | some _ => true

/-- `candid_renderer_create_sampler`. -/
def candid_renderer_create_sampler {α : Type} (renderer : Option Candid_Renderer)
    (desc : α) (sampler_create : α → Candid_Result) : Candid_Result × Bool :=
  match renderer with
  | none => (CANDID_ERROR_INVALID_ARGUMENT, false)
  | some _ => (sampler_create desc, true)

/-- `candid_renderer_destroy_sampler`. -/
def candid_renderer_destroy_sampler (renderer : Option Candid_Renderer) : Bool :=
  match renderer with
  | none => false
  | some _ => true

/-- `candid_renderer_create_shader_module`. -/
def candid_renderer_create_shader_module {α : Type}
    (renderer : Option Candid_Renderer) (desc : α)
    (shader_module_create : α → Candid_Result) : Candid_Result × Bool :=
  match renderer with
  | none => (CANDID_ERROR_INVALID_ARGUMENT, false)
  | some _ => (shader_module_create desc, true)

/-- `candid_renderer_destroy_shader_module`. -/
def candid_renderer_destroy_shader_module
    (renderer : Option Candid_Renderer) : Bool :=
  match renderer with
  | none => false
  | some _ => true

/-- `candid_renderer_create_shader_program`. -/
def candid_renderer_create_shader_program {α : Type}
    (renderer : Option Candid_Renderer) (desc : α)
    (shader_program_create : α → Candid_Result) : Candid_Result × Bool :=
  match renderer with
  | none => (CANDID_ERROR_INVALID_ARGUMENT, false)
  | some _ => (shader_program_create desc, true)

/-- `candid_renderer_destroy_shader_program`. -/
def candid_renderer_destroy_shader_program
    (renderer : Option Candid_Renderer) : Bool :=
  match renderer with
  | none => false
  | some _ => true

/-- `candid_renderer_get_builtin_shader`: the body is a TODO stub that
ignores all arguments and returns `CANDID_ERROR_RESOURCE_CREATION` without
any NULL check or backend call. -/
def candid_renderer_get_builtin_shader (renderer : Option Candid_Renderer)
    (shader : Candid_BuiltinShader) : Candid_Result × Bool :=
  (CANDID_ERROR_RESOURCE_CREATION, false)

/-- `candid_renderer_create_mesh`. -/
def candid_renderer_create_mesh {α : Type} (renderer : Option Candid_Renderer)
    (desc : α) (mesh_create : α → Candid_Result) : Candid_Result × Bool :=
  match renderer with
  | none => (CANDID_ERROR_INVALID_ARGUMENT, false)
  | some _ => (mesh_create desc, true)

/-- `candid_renderer_destroy_mesh`. -/
def candid_renderer_destroy_mesh (renderer : Option Candid_Renderer) : Bool :=
  match renderer with
  | none => false
  | some _ => true

/-- `candid_renderer_create_material`. -/
def candid_renderer_create_material {α : Type}
    (renderer : Option Candid_Renderer) (desc : α)
    (material_create : α → Candid_Result) : Candid_Result × Bool :=
  match renderer with
  | none => (CANDID_ERROR_INVALID_ARGUMENT, false)
  | some _ => (material_create desc, true)

/-- `candid_renderer_destroy_material`. -/
def candid_renderer_destroy_material (renderer : Option Candid_Renderer) : Bool :=
  match renderer with
  | none => false
  | some _ => true

/-- `candid_renderer_begin_frame`: NULL guard only; the body is a
frame-tracking placeholder making no backend call. -/
def candid_renderer_begin_frame (renderer : Option Candid_Renderer) :
    Candid_Result × Bool :=
  match renderer with
  | none => (CANDID_ERROR_INVALID_ARGUMENT, false)
  | some _ => (CANDID_SUCCESS, false)

/-- `candid_renderer_end_frame`: increments the frame counter and forwards
to `backend->swapchain_present`. -/
def candid_renderer_end_frame (renderer : Option Candid_Renderer)
    (swapchain_present : Candid_Result) :
    Option Candid_Renderer × Candid_Result × Bool :=
  match renderer with
  | none => (none, CANDID_ERROR_INVALID_ARGUMENT, false)
  | some r =>
      (some { r with frame_count := r.frame_count + 1 }, swapchain_present, true)

/-- `candid_renderer_set_clear_color`: stores the color; no backend call. -/
def candid_renderer_set_clear_color (renderer : Option Candid_Renderer)
    (color : Candid_Color) : Option Candid_Renderer :=
  match renderer with
  | none => none
  | some r => some { r with clear_color := color }

/-- `candid_renderer_set_viewport`: the body ignores all arguments
(reserved for render-pass state); never a backend call. -/
def candid_renderer_set_viewport (renderer : Option Candid_Renderer) : Bool :=
  false

/-- `candid_renderer_set_scissor`: ignores all arguments. -/
def candid_renderer_set_scissor (renderer : Option Candid_Renderer) : Bool :=
  false

/-- `candid_renderer_draw_mesh`: TODO stub ignoring all arguments. -/
def candid_renderer_draw_mesh (renderer : Option Candid_Renderer) : Bool :=
  false

/-- `candid_renderer_draw_submesh`: TODO stub ignoring all arguments. -/
def candid_renderer_draw_submesh (renderer : Option Candid_Renderer) : Bool :=
  false

/-- `candid_renderer_draw_mesh_instanced`: TODO stub ignoring all arguments. -/
def candid_renderer_draw_mesh_instanced
    (renderer : Option Candid_Renderer) : Bool :=
  false

/-- `candid_renderer_set_camera` (renderer.c lines 345-414): no-op when the
renderer or camera pointer is NULL. Aspect defaults to
`width / height` when the camera's `aspect_ratio <= 0` and both surface
dimensions are positive. The view matrix is the look-at construction
(`f = normalize(target - position)`, `s = normalize(f x up)`, `u = s x f`),
the projection the right-handed perspective matrix with
`tan_half_fov = tan(fov_y * 0.5)` and `range = far - near`. -/
def candid_renderer_set_camera (renderer : Option Candid_Renderer)
    (camera : Option Candid_Camera) : Option Candid_Renderer :=
  match renderer, camera with
  | some r, some cam =>
      let aspect :=
        if cam.aspect_ratio ≤ 0 ∧ 0 < r.width ∧ 0 < r.height then
          (r.width : ℝ) / (r.height : ℝ)
        else cam.aspect_ratio
      let f0 := sub3 cam.target cam.position
      let f_len := norm3 f0
      let f : Candid_Vec3 :=
        if f_len > 0 then ⟨f0.x / f_len, f0.y / f_len, f0.z / f_len⟩ else f0
      let s0 := cross3 f cam.up
      let s_len := norm3 s0
      let s : Candid_Vec3 :=
        if s_len > 0 then ⟨s0.x / s_len, s0.y / s_len, s0.z / s_len⟩ else s0
      let u := cross3 s f
      let view : Candid_Mat4 :=
        ⟨s.x, u.x, -f.x, 0,
         s.y, u.y, -f.y, 0,
         s.z, u.z, -f.z, 0,
         -(s.x * cam.position.x + s.y * cam.position.y + s.z * cam.position.z),
         -(u.x * cam.position.x + u.y * cam.position.y + u.z * cam.position.z),
         f.x * cam.position.x + f.y * cam.position.y + f.z * cam.position.z,
         1⟩
      let tan_half_fov := Real.tan (cam.fov_y * 0.5)
      let range := cam.far_plane - cam.near_plane
      let proj : Candid_Mat4 :=
        ⟨1 / (aspect * tan_half_fov), 0, 0, 0,
         0, 1 / tan_half_fov, 0, 0,
         0, 0, -(cam.far_plane + cam.near_plane) / range, -1,
         0, 0, -(2 * cam.far_plane * cam.near_plane) / range, 0⟩
      some { r with view_matrix := view, projection_matrix := proj }
  | _, _ => renderer

/-- `candid_renderer_set_view_projection`: NULL renderer is a no-op; a NULL
matrix argument leaves the corresponding stored matrix untouched. -/
def candid_renderer_set_view_projection (renderer : Option Candid_Renderer)
    (view : Option Candid_Mat4) (projection : Option Candid_Mat4) :
    Option Candid_Renderer :=
  match renderer with
  | none => none
  | some r =>
      let r1 := match view with
                | some v => { r with view_matrix := v }
                | none => r
      let r2 := match projection with
                | some pm => { r1 with projection_matrix := pm }
                | none => r1
      some r2

/-- `candid_renderer_get_time`: 0 on NULL. -/
def candid_renderer_get_time : Option Candid_Renderer → ℝ
  | none => 0
  | some r => r.time

/-- `candid_renderer_get_delta_time`: 0 on NULL. -/
def candid_renderer_get_delta_time : Option Candid_Renderer → ℝ
  | none => 0
  | some r => r.delta_time

/-- `candid_renderer_get_frame_count`: 0 on NULL. -/
def candid_renderer_get_frame_count : Option Candid_Renderer → Nat
  | none => 0
  | some r => r.frame_count

end

/-!
## Shared lemmas
-/

theorem u16cast_le (n : Nat) : u16cast n ≤ n := Nat.mod_le n 65536

/-- Length of the sphere vertex buffer. -/
theorem sphereVertices_length (radius : ℝ) (segments rings : Nat) :
    (sphereVertices radius segments rings).length = (segments + 1) * (rings + 1) := by
  simp [sphereVertices, List.length_flatMap, Function.comp_def, Nat.mul_comm]

/-- Length of the plane vertex buffer. -/
theorem planeVertices_length (width height : ℝ) (sx sy : Nat) :
    (planeVertices width height sx sy).length = (sx + 1) * (sy + 1) := by
  simp [planeVertices, List.length_flatMap, Function.comp_def, Nat.mul_comm]

/-- Length of the cylinder vertex buffer. -/
theorem cylinderVertices_length (radius height : ℝ) (segments : Nat) :
    (cylinderVertices radius height segments).length = (segments + 1) * 4 + 2 := by
  simp [cylinderVertices]
  omega

/-- Length of the cube vertex buffer. -/
theorem cubeVertices_length (h : ℝ) : (cubeVertices h).length = 24 := by
  simp [cubeVertices, cubeFaceData, cubeUVs]

/-- Bound for the quad-grid index pattern shared by the sphere and plane
generators: indices built from `a = i*(S+1) + j` with `i < R`, `j < S` stay
below `(S+1)*(R+1)`. -/
theorem quadIndices_lt (S R i j : Nat) (hi : i < R) (hj : j < S) :
    ∀ x ∈ [u16cast (i * (S + 1) + j),
           u16cast (u16cast (i * (S + 1) + j) + S + 1),
           u16cast (u16cast (i * (S + 1) + j) + 1),
           u16cast (u16cast (i * (S + 1) + j) + 1),
           u16cast (u16cast (i * (S + 1) + j) + S + 1),
           u16cast (u16cast (u16cast (i * (S + 1) + j) + S + 1) + 1)],
      x < (S + 1) * (R + 1) := by
  intro x hx
  have ha : u16cast (i * (S + 1) + j) ≤ i * (S + 1) + j := u16cast_le _
  have hb : u16cast (u16cast (i * (S + 1) + j) + S + 1) ≤ i * (S + 1) + j + S + 1 :=
    le_trans (u16cast_le _) (by omega)
  have hc : u16cast (u16cast (i * (S + 1) + j) + 1) ≤ i * (S + 1) + j + 1 :=
    le_trans (u16cast_le _) (by omega)
  have hd : u16cast (u16cast (u16cast (i * (S + 1) + j) + S + 1) + 1) ≤
      i * (S + 1) + j + S + 2 := le_trans (u16cast_le _) (by omega)
  have hmul : (i + 1) * (S + 1) ≤ R * (S + 1) := Nat.mul_le_mul_right _ hi
  have e1 : (i + 1) * (S + 1) = i * (S + 1) + S + 1 := by ring
  have e2 : (S + 1) * (R + 1) = R * (S + 1) + S + 1 := by ring
  have top : i * (S + 1) + j + S + 3 ≤ (S + 1) * (R + 1) := by omega
  simp only [List.mem_cons, List.not_mem_nil, or_false] at hx
  rcases hx with rfl | rfl | rfl | rfl | rfl | rfl <;> omega

/-- Every sphere index is below the sphere vertex count. -/
theorem sphereIndices_lt (segments rings : Nat) :
    ∀ x ∈ sphereIndices segments rings, x < (segments + 1) * (rings + 1) := by
  intro x hx
  simp only [sphereIndices, List.mem_flatMap, List.mem_range] at hx
  obtain ⟨ring, hring, seg, hseg, hx⟩ := hx
  exact quadIndices_lt segments rings ring seg hring hseg x hx

/-- Every plane index is below the plane vertex count. -/
theorem planeIndices_lt (sx sy : Nat) :
    ∀ x ∈ planeIndices sx sy, x < (sx + 1) * (sy + 1) := by
  intro x hx
  simp only [planeIndices, List.mem_flatMap, List.mem_range] at hx
  obtain ⟨y, hy, z, hz, hx⟩ := hx
  exact quadIndices_lt sx sy y z hy hz x hx

/-- Every cylinder index is below the cylinder vertex count. -/
theorem cylinderIndices_lt (segments : Nat) :
    ∀ x ∈ cylinderIndices segments, x < (segments + 1) * 4 + 2 := by
  intro x hx
  simp only [cylinderIndices, List.mem_append] at hx
  rcases hx with (hx | hx) | hx
  · obtain ⟨s, hs, hmem⟩ := List.mem_flatMap.mp hx
    rw [List.mem_range] at hs
    simp only [List.mem_cons, List.not_mem_nil, or_false] at hmem
    rcases hmem with rfl | rfl | rfl | rfl | rfl | rfl <;>
      exact lt_of_le_of_lt (u16cast_le _) (by omega)
  · obtain ⟨s, hs, hmem⟩ := List.mem_flatMap.mp hx
    rw [List.mem_range] at hs
    simp only [List.mem_cons, List.not_mem_nil, or_false] at hmem
    rcases hmem with rfl | rfl | rfl <;>
      exact lt_of_le_of_lt (u16cast_le _) (by omega)
  · obtain ⟨s, hs, hmem⟩ := List.mem_flatMap.mp hx
    rw [List.mem_range] at hs
    simp only [List.mem_cons, List.not_mem_nil, or_false] at hmem
    rcases hmem with rfl | rfl | rfl <;>
      exact lt_of_le_of_lt (u16cast_le _) (by omega)

/-- Every cube index is below 24. -/
theorem cubeIndices_lt : ∀ x ∈ cubeIndices, x < 24 := by decide

/-- Length of the cube index buffer. -/
theorem cubeIndices_length : cubeIndices.length = 36 := by decide

/-- Length of the sphere index buffer. -/
theorem sphereIndices_length (segments rings : Nat) :
    (sphereIndices segments rings).length = segments * rings * 6 := by
  simp [sphereIndices, List.length_flatMap, Function.comp_def]
  ring

/-!
## C9: index validity of the generated meshes
-/

/-- C9: for every successful call to `candid_mesh_create_cube`,
`candid_mesh_create_sphere`, `candid_mesh_create_plane` or
`candid_mesh_create_cylinder` (with their stated preconditions), every value
in the returned index buffer is strictly less than the returned vertex
count. -/
theorem generated_indices_below_vertex_count :
    (∀ (size : ℝ) (m : Candid_MeshData),
        (candid_mesh_create_cube size false (true, true)).2.1 = some m →
        ∀ x ∈ m.indices.getD [], x < m.vertex_count) ∧
    (∀ (radius : ℝ) (segments rings : Nat) (m : Candid_MeshData),
        3 ≤ segments → 2 ≤ rings →
        (candid_mesh_create_sphere radius segments rings false (true, true)).2.1 = some m →
        ∀ x ∈ m.indices.getD [], x < m.vertex_count) ∧
    (∀ (width height : ℝ) (sx sy : Nat) (m : Candid_MeshData),
        1 ≤ sx → 1 ≤ sy →
        (candid_mesh_create_plane width height sx sy false (true, true)).2.1 = some m →
        ∀ x ∈ m.indices.getD [], x < m.vertex_count) ∧
    (∀ (radius height : ℝ) (segments : Nat) (m : Candid_MeshData),
        3 ≤ segments →
        (candid_mesh_create_cylinder radius height segments false (true, true)).2.1 = some m →
        ∀ x ∈ m.indices.getD [], x < m.vertex_count) := by
  refine ⟨?_, ?_, ?_, ?_⟩
  · intro size m hm x hx
    simp only [candid_mesh_create_cube] at hm
    simp only [Bool.false_eq_true, if_false, not_true_eq_false, false_or,
      if_neg, Option.some.injEq, reduceIte] at hm
    subst hm
    simp only [Candid_MeshData.vertex_count, Option.getD_some] at hx ⊢
    rw [cubeVertices_length]
    exact cubeIndices_lt x hx
  · intro radius segments rings m hseg hring hm x hx
    have h1 : ¬ segments < 3 := by omega
    have h2 : ¬ rings < 2 := by omega
    simp only [candid_mesh_create_sphere, h1, h2, Bool.false_eq_true, or_self,
      false_or, if_false, reduceIte, not_true_eq_false, Option.some.injEq] at hm
    subst hm
    simp only [Candid_MeshData.vertex_count, Option.getD_some] at hx ⊢
    rw [sphereVertices_length]
    exact sphereIndices_lt segments rings x hx
  · intro width height sx sy m hx1 hy1 hm x hx
    have h1 : ¬ sx < 1 := by omega
    have h2 : ¬ sy < 1 := by omega
    simp only [candid_mesh_create_plane, h1, h2, Bool.false_eq_true, or_self,
      false_or, if_false, reduceIte, not_true_eq_false, Option.some.injEq] at hm
    subst hm
    simp only [Candid_MeshData.vertex_count, Option.getD_some] at hx ⊢
    rw [planeVertices_length]
    exact planeIndices_lt sx sy x hx
  · intro radius height segments m hseg hm x hx
    have h1 : ¬ segments < 3 := by omega
    simp only [candid_mesh_create_cylinder, h1, Bool.false_eq_true, or_self,
      false_or, if_false, reduceIte, not_true_eq_false, Option.some.injEq] at hm
    subst hm
    simp only [Candid_MeshData.vertex_count, Option.getD_some] at hx ⊢
    rw [cylinderVertices_length]
    exact cylinderIndices_lt segments x hx

/-- Witness for C9: the cube at size 1 with successful allocations, index 0. -/
theorem generated_indices_below_vertex_count_witness :
    ((candid_mesh_create_cube 1 false (true, true)).2.1 =
        some { vertices := some (cubeVertices (1 * 0.5)),
               indices := some cubeIndices,
               index_format := .CANDID_INDEX_FORMAT_UINT16 } ∧
      0 ∈ ({ vertices := some (cubeVertices (1 * 0.5)),
             indices := some cubeIndices,
             index_format := .CANDID_INDEX_FORMAT_UINT16 } :
               Candid_MeshData).indices.getD []) ∧
    0 < ({ vertices := some (cubeVertices (1 * 0.5)),
           indices := some cubeIndices,
           index_format := .CANDID_INDEX_FORMAT_UINT16 } :
             Candid_MeshData).vertex_count :=
  ⟨⟨rfl, by decide⟩,
   generated_indices_below_vertex_count.1 1 _ rfl 0 (by decide)⟩

/-!
## C6: registry coherence
-/

/-- C6: in every reachable registry state, every backend written by
`candid_backend_get_available` satisfies `candid_backend_is_available`, the
written backends are in strictly ascending enum order with at most
`max_count` entries, and `candid_backend_get(AUTO)` returns the same
interface as `candid_backend_get(candid_backend_get_preferred())`. -/
theorem backend_registry_coherent (p : Platform) (max_count : Nat) :
    (∀ b ∈ candid_backend_get_available p max_count,
        candid_backend_is_available p b = true) ∧
    List.Pairwise (fun a b => a.toNat < b.toNat)
        (candid_backend_get_available p max_count) ∧
    (candid_backend_get_available p max_count).length ≤ max_count ∧
    candid_backend_get p .CANDID_BACKEND_AUTO =
      candid_backend_get p (candid_backend_get_preferred p) := by
  refine ⟨?_, ?_, ?_, ?_⟩
  · intro b hb
    have hb2 : b ∈ backendScanOrder.filter fun c => (s_backends p c).isSome :=
      List.mem_of_mem_take hb
    obtain ⟨hmem, hsome⟩ := List.mem_filter.mp hb2
    simp only [backendScanOrder, List.mem_cons, List.not_mem_nil, or_false] at hmem
    rcases hmem with rfl | rfl | rfl | rfl <;>
      simpa [candid_backend_is_available] using hsome
  · exact List.Pairwise.sublist (List.take_sublist _ _)
      (List.Pairwise.filter _ (by decide))
  · exact List.length_take_le _ _
  · obtain ⟨a, v, w⟩ := p
    cases a <;> cases v <;> cases w <;> decide

/-- Witness for C6: the all-platforms configuration with room for four
entries; Metal is reported available. -/
theorem backend_registry_coherent_witness :
    Candid_Backend.CANDID_BACKEND_METAL ∈
        candid_backend_get_available ⟨true, true, true⟩ 4 ∧
      candid_backend_is_available ⟨true, true, true⟩
        .CANDID_BACKEND_METAL = true :=
  ⟨by decide, (backend_registry_coherent ⟨true, true, true⟩ 4).1 _ (by decide)⟩

/-!
## C8: allocation-failure atomicity of the generators
-/

/-- C8: for each primitive generator, whenever the result is `OutOfMemory`
every allocated buffer has been freed (leak counter 0) and the caller's
output struct was not written. -/
theorem generator_alloc_failure_atomic :
    (∀ (size : ℝ) (outIsNull : Bool) (alloc : Bool × Bool),
        (candid_mesh_create_cube size outIsNull alloc).1 =
          CANDID_ERROR_OUT_OF_MEMORY →
        (candid_mesh_create_cube size outIsNull alloc).2.1 = none ∧
        (candid_mesh_create_cube size outIsNull alloc).2.2 = 0) ∧
    (∀ (radius : ℝ) (segments rings : Nat) (outIsNull : Bool)
        (alloc : Bool × Bool),
        (candid_mesh_create_sphere radius segments rings outIsNull alloc).1 =
          CANDID_ERROR_OUT_OF_MEMORY →
        (candid_mesh_create_sphere radius segments rings outIsNull alloc).2.1 = none ∧
        (candid_mesh_create_sphere radius segments rings outIsNull alloc).2.2 = 0) ∧
    (∀ (width height : ℝ) (sx sy : Nat) (outIsNull : Bool)
        (alloc : Bool × Bool),
        (candid_mesh_create_plane width height sx sy outIsNull alloc).1 =
          CANDID_ERROR_OUT_OF_MEMORY →
        (candid_mesh_create_plane width height sx sy outIsNull alloc).2.1 = none ∧
        (candid_mesh_create_plane width height sx sy outIsNull alloc).2.2 = 0) ∧
    (∀ (radius height : ℝ) (segments : Nat) (outIsNull : Bool)
        (alloc : Bool × Bool),
        (candid_mesh_create_cylinder radius height segments outIsNull alloc).1 =
          CANDID_ERROR_OUT_OF_MEMORY →
        (candid_mesh_create_cylinder radius height segments outIsNull alloc).2.1 = none ∧
        (candid_mesh_create_cylinder radius height segments outIsNull alloc).2.2 = 0) := by
  refine ⟨?_, ?_, ?_, ?_⟩
  · intro size outIsNull alloc h
    rcases alloc with ⟨a1, a2⟩
    cases outIsNull <;> cases a1 <;> cases a2 <;>
      simp_all [candid_mesh_create_cube]
  · intro radius segments rings outIsNull alloc h
    rcases alloc with ⟨a1, a2⟩
    by_cases hg : segments < 3 ∨ rings < 2
    · cases outIsNull <;> simp_all [candid_mesh_create_sphere]
    · have hcond : (segments < 3 ∨ rings < 2) = False := by
        simp only [eq_iff_iff, iff_false]; exact hg
      cases outIsNull <;> cases a1 <;> cases a2 <;>
        simp [candid_mesh_create_sphere, hcond] at h ⊢
  · intro width height sx sy outIsNull alloc h
    rcases alloc with ⟨a1, a2⟩
    by_cases hg : sx < 1 ∨ sy < 1
    · cases outIsNull <;> simp_all [candid_mesh_create_plane]
    · have hcond : (sx = 0 ∨ sy = 0) = False := by
        simp only [eq_iff_iff, iff_false]; omega
      cases outIsNull <;> cases a1 <;> cases a2 <;>
        simp [candid_mesh_create_plane, hcond] at h ⊢
  · intro radius height segments outIsNull alloc h
    rcases alloc with ⟨a1, a2⟩
    by_cases hg : segments < 3
    · cases outIsNull <;> simp_all [candid_mesh_create_cylinder]
    · have hcond : (segments < 3) = False := by
        simp only [eq_iff_iff, iff_false]; exact hg
      cases outIsNull <;> cases a1 <;> cases a2 <;>
        simp [candid_mesh_create_cylinder, hcond] at h ⊢

/-- Witness for C8: the cube generator with a failing vertex allocation. -/
theorem generator_alloc_failure_atomic_witness :
    (candid_mesh_create_cube 1 false (false, true)).1 =
        CANDID_ERROR_OUT_OF_MEMORY ∧
      (candid_mesh_create_cube 1 false (false, true)).2.1 = none ∧
      (candid_mesh_create_cube 1 false (false, true)).2.2 = 0 :=
  ⟨rfl, generator_alloc_failure_atomic.1 1 false (false, true) rfl⟩

/-!
## C5: calculate_aabb null/empty handling
-/

/-- C5 (divergence exhibit): `candid_mesh_calculate_aabb` returns
`InvalidArgument` when the vertex pointer is NULL, but performs no
vertex-count check: on a mesh with a non-null vertex pointer and vertex
count 0 it reads vertex 0 out of bounds (the outer `none`) instead of
returning `InvalidArgument`; on a single-vertex mesh it returns `Success`
with `min = max =` that vertex's position. -/
theorem calculate_aabb_missing_count_guard :
    candid_mesh_calculate_aabb
        { vertices := some [], indices := none,
          index_format := .CANDID_INDEX_FORMAT_UINT16 } = none ∧
      candid_mesh_calculate_aabb
        { vertices := none, indices := none,
          index_format := .CANDID_INDEX_FORMAT_UINT16 } =
        some (CANDID_ERROR_INVALID_ARGUMENT, none) ∧
      ∀ (v : Candid_Vertex),
        candid_mesh_calculate_aabb
          { vertices := some [v], indices := none,
            index_format := .CANDID_INDEX_FORMAT_UINT16 } =
          some (CANDID_SUCCESS, some ⟨v.position, v.position⟩) :=
  ⟨rfl, rfl, fun v => rfl⟩

/-!
## C10: null-renderer totality of the façade
-/

/-- C10 counterexample: `candid_renderer_get_builtin_shader` on a NULL
renderer makes no backend call but returns `ResourceCreationFailed`, not
`InvalidArgument` as the claim states for every fallible façade operation. -/
theorem facade_null_builtin_shader_not_invalid_argument :
    candid_renderer_get_builtin_shader none .CANDID_SHADER_UNLIT =
        (CANDID_ERROR_RESOURCE_CREATION, false) ∧
      CANDID_ERROR_RESOURCE_CREATION ≠ CANDID_ERROR_INVALID_ARGUMENT :=
  ⟨rfl, by decide⟩

/-- C10 (amended): every public `candid_renderer_*` operation on a NULL
renderer is well-defined and makes no backend call; the fallible ones return
`InvalidArgument` — except `candid_renderer_get_builtin_shader`, a TODO stub
that returns `ResourceCreationFailed` for every renderer — void operations
are no-ops, and getters return `0` / `AUTO`. -/
theorem facade_null_renderer_total :
    candid_renderer_destroy none = false ∧
    (∀ (width height : Nat) (f : Nat → Nat → Candid_Result),
      candid_renderer_resize none width height f =
        (none, CANDID_ERROR_INVALID_ARGUMENT, false)) ∧
    candid_renderer_get_backend none = .CANDID_BACKEND_AUTO ∧
    (∀ (outIsNull : Bool) (r : Candid_Result),
      candid_renderer_get_limits none outIsNull r =
        (CANDID_ERROR_INVALID_ARGUMENT, false)) ∧
    (∀ (α : Type) (desc : α) (f : α → Candid_Result),
      candid_renderer_create_buffer none desc f =
        (CANDID_ERROR_INVALID_ARGUMENT, false)) ∧
    candid_renderer_destroy_buffer none = false ∧
    (∀ (α : Type) (desc : α) (f : α → Candid_Result),
      candid_renderer_create_texture none desc f =
        (CANDID_ERROR_INVALID_ARGUMENT, false)) ∧
    candid_renderer_destroy_texture none = false ∧
    (∀ (α : Type) (desc : α) (f : α → Candid_Result),
      candid_renderer_create_sampler none desc f =
        (CANDID_ERROR_INVALID_ARGUMENT, false)) ∧
    candid_renderer_destroy_sampler none = false ∧
    (∀ (α : Type) (desc : α) (f : α → Candid_Result),
      candid_renderer_create_shader_module none desc f =
        (CANDID_ERROR_INVALID_ARGUMENT, false)) ∧
    candid_renderer_destroy_shader_module none = false ∧
    (∀ (α : Type) (desc : α) (f : α → Candid_Result),
      candid_renderer_create_shader_program none desc f =
        (CANDID_ERROR_INVALID_ARGUMENT, false)) ∧
    candid_renderer_destroy_shader_program none = false ∧
    (∀ (shader : Candid_BuiltinShader),
      candid_renderer_get_builtin_shader none shader =
        (CANDID_ERROR_RESOURCE_CREATION, false)) ∧
    (∀ (α : Type) (desc : α) (f : α → Candid_Result),
      candid_renderer_create_mesh none desc f =
        (CANDID_ERROR_INVALID_ARGUMENT, false)) ∧
    candid_renderer_destroy_mesh none = false ∧
    (∀ (α : Type) (desc : α) (f : α → Candid_Result),
      candid_renderer_create_material none desc f =
        (CANDID_ERROR_INVALID_ARGUMENT, false)) ∧
    candid_renderer_destroy_material none = false ∧
    candid_renderer_begin_frame none = (CANDID_ERROR_INVALID_ARGUMENT, false) ∧
    (∀ (r : Candid_Result),
      candid_renderer_end_frame none r =
        (none, CANDID_ERROR_INVALID_ARGUMENT, false)) ∧
    (∀ (color : Candid_Color),
      candid_renderer_set_clear_color none color = none) ∧
    candid_renderer_set_viewport none = false ∧
    candid_renderer_set_scissor none = false ∧
    candid_renderer_draw_mesh none = false ∧
    candid_renderer_draw_submesh none = false ∧
    candid_renderer_draw_mesh_instanced none = false ∧
    (∀ (camera : Option Candid_Camera),
      candid_renderer_set_camera none camera = none) ∧
    (∀ (view projection : Option Candid_Mat4),
      candid_renderer_set_view_projection none view projection = none) ∧
    candid_renderer_get_time none = 0 ∧
    candid_renderer_get_delta_time none = 0 ∧
    candid_renderer_get_frame_count none = 0 := by
  refine ⟨rfl, fun _ _ _ => rfl, rfl, ?_, fun _ _ _ => rfl, rfl, fun _ _ _ => rfl,
    rfl, fun _ _ _ => rfl, rfl, fun _ _ _ => rfl, rfl, fun _ _ _ => rfl, rfl,
    fun _ => rfl, fun _ _ _ => rfl, rfl, fun _ _ _ => rfl, rfl, rfl,
    fun _ => rfl, fun _ => rfl, rfl, rfl, rfl, rfl, rfl, fun c => ?_,
    fun _ _ => rfl, rfl, rfl, rfl⟩
  · intro outIsNull r
    rfl
  · cases c <;> rfl

/-!
## C1: cube generator specification
-/

/-- Position projection of a cube vertex. -/
theorem cubeVertex_position (n p uv) : (cubeVertex n p uv).position = p := rfl

/-- The AABB scan only reads vertex positions. -/
theorem foldl_aabbUpdate_map_position (l : List Candid_Vertex) (b : Candid_AABB) :
    List.foldl (fun box v => aabbUpdate box v.position) b l =
      List.foldl aabbUpdate b (l.map fun v => v.position) := by
  induction l generalizing b with
  | nil => rfl
  | cons v t ih => simp [ih]

/-- The normal of every entry of the cube face table is one of the six
axis-aligned unit vectors. -/
theorem cubeFaceData_normal_axis (h : ℝ) :
    ∀ fd ∈ cubeFaceData h,
      fd.1 ∈ ([⟨1, 0, 0⟩, ⟨-1, 0, 0⟩, ⟨0, 1, 0⟩, ⟨0, -1, 0⟩,
               ⟨0, 0, 1⟩, ⟨0, 0, -1⟩] : List Candid_Vec3) := by
  intro fd hfd
  simp only [cubeFaceData, List.mem_cons, List.not_mem_nil, or_false] at hfd
  rcases hfd with rfl | rfl | rfl | rfl | rfl | rfl <;> simp

/-- C1: for positive size and a non-null output pointer (with successful
allocations), `candid_mesh_create_cube` returns `Success` and a mesh with 24
vertices, 36 indices in 16-bit format, every vertex normal one of the six
axis-aligned unit vectors, and AABB `[-size/2, size/2]` in each coordinate. -/
theorem create_cube_spec (size : ℝ) (hpos : 0 < size) :
    candid_mesh_create_cube size false (true, true) =
      (CANDID_SUCCESS,
        some { vertices := some (cubeVertices (size * 0.5)),
               indices := some cubeIndices,
               index_format := .CANDID_INDEX_FORMAT_UINT16 }, 0) ∧
    (cubeVertices (size * 0.5)).length = 24 ∧
    cubeIndices.length = 36 ∧
    (∀ v ∈ cubeVertices (size * 0.5),
      v.normal ∈ ([⟨1, 0, 0⟩, ⟨-1, 0, 0⟩, ⟨0, 1, 0⟩, ⟨0, -1, 0⟩,
                   ⟨0, 0, 1⟩, ⟨0, 0, -1⟩] : List Candid_Vec3)) ∧
    candid_mesh_calculate_aabb
        { vertices := some (cubeVertices (size * 0.5)),
          indices := some cubeIndices,
          index_format := .CANDID_INDEX_FORMAT_UINT16 } =
      some (CANDID_SUCCESS,
        some ⟨⟨-(size / 2), -(size / 2), -(size / 2)⟩,
              ⟨size / 2, size / 2, size / 2⟩⟩) := by
  have hh : 0 < size * 0.5 := by nlinarith
  have hC : -(size * 0.5) < size * 0.5 := by linarith
  have hB : ¬ (size * 0.5 < -(size * 0.5)) := by linarith
  refine ⟨rfl, cubeVertices_length _, cubeIndices_length, ?_, ?_⟩
  · intro v hv
    simp only [cubeVertices, List.mem_flatMap] at hv
    obtain ⟨fd, hfd, hv⟩ := hv
    simp only [List.mem_map] at hv
    obtain ⟨pu, hpu, rfl⟩ := hv
    simpa [cubeVertex] using cubeFaceData_normal_axis (size * 0.5) fd hfd
  · simp only [cubeVertices, cubeFaceData, cubeUVs, List.flatMap_cons,
      List.flatMap_nil, List.zip_cons_cons, List.zip_nil_left,
      List.zip_nil_right, List.map_cons, List.map_nil, List.append_nil,
      List.cons_append, List.nil_append]
    simp only [candid_mesh_calculate_aabb, cubeVertex_position,
      foldl_aabbUpdate_map_position, List.map_cons, List.map_nil]
    simp only [List.foldl_cons, List.foldl_nil, aabbUpdate, hC, hB,
      lt_self_iff_false, if_true, if_false, gt_iff_lt, ite_true, ite_false,
      reduceIte]
    norm_num
    ring

/-- Witness for C1: the cube at size 2. -/
theorem create_cube_spec_witness :
    0 < (2 : ℝ) ∧
      candid_mesh_create_cube 2 false (true, true) =
        (CANDID_SUCCESS,
          some { vertices := some (cubeVertices (2 * 0.5)),
                 indices := some cubeIndices,
                 index_format := .CANDID_INDEX_FORMAT_UINT16 }, 0) :=
  ⟨by norm_num, (create_cube_spec 2 (by norm_num)).1⟩

/-!
## C7: set_camera aspect defaulting
-/

instance : Inhabited Candid_Mat4 :=
  ⟨⟨0, 0, 0, 0, 0, 0, 0, 0, 0, 0, 0, 0, 0, 0, 0, 0⟩⟩

instance : Inhabited Candid_Renderer :=
  ⟨{ backend_type := .CANDID_BACKEND_AUTO, clear_color := ⟨0, 0, 0, 0⟩,
     view_matrix := default, projection_matrix := default, time := 0,
     delta_time := 0, frame_count := 0, width := 0, height := 0 }⟩

/-- C7: on a renderer with surface 800 x 600, `candid_renderer_set_camera`
with a camera whose `aspect_ratio <= 0` and `fov_y` = 60 degrees (pi/3
radians) sets the projection entry `m[0]` to `1 / (aspect * tan(30 deg))`
with `aspect = 800 / 600` defaulted from the stored surface size. -/
theorem set_camera_projection_m0 (r : Candid_Renderer) (cam : Candid_Camera)
    (hw : r.width = 800) (hh : r.height = 600)
    (ha : cam.aspect_ratio ≤ 0) (hf : cam.fov_y = Real.pi / 3) :
    ((candid_renderer_set_camera (some r) (some cam)).getD
        default).projection_matrix.m0 =
      1 / ((800 / 600) * Real.tan (Real.pi / 6)) := by
  simp only [candid_renderer_set_camera, Option.getD_some]
  have hcond : cam.aspect_ratio ≤ 0 ∧ 0 < r.width ∧ 0 < r.height := by
    refine ⟨ha, ?_, ?_⟩ <;> omega
  rw [if_pos hcond, hw, hh, hf]
  rw [show Real.pi / 3 * (0.5 : ℝ) = Real.pi / 6 by ring]
  norm_num

/-- Witness for C7: a concrete 800 x 600 renderer and a 60-degree camera. -/
theorem set_camera_projection_m0_witness :
    ({ backend_type := .CANDID_BACKEND_AUTO, clear_color := ⟨0, 0, 0, 0⟩,
       view_matrix := default, projection_matrix := default, time := 0,
       delta_time := 0, frame_count := 0, width := 800, height := 600 } :
         Candid_Renderer).width = 800 ∧
      ({ position := ⟨0, 0, 5⟩, target := ⟨0, 0, 0⟩, up := ⟨0, 1, 0⟩,
         fov_y := Real.pi / 3, near_plane := 0.1, far_plane := 100,
         aspect_ratio := 0 } : Candid_Camera).aspect_ratio ≤ 0 ∧
      ((candid_renderer_set_camera
          (some { backend_type := .CANDID_BACKEND_AUTO,
                  clear_color := ⟨0, 0, 0, 0⟩, view_matrix := default,
                  projection_matrix := default, time := 0, delta_time := 0,
                  frame_count := 0, width := 800, height := 600 })
          (some { position := ⟨0, 0, 5⟩, target := ⟨0, 0, 0⟩, up := ⟨0, 1, 0⟩,
                  fov_y := Real.pi / 3, near_plane := 0.1, far_plane := 100,
                  aspect_ratio := 0 })).getD default).projection_matrix.m0 =
        1 / ((800 / 600) * Real.tan (Real.pi / 6)) :=
  ⟨rfl, le_refl 0,
   set_camera_projection_m0 _ _ rfl rfl (le_refl 0) rfl⟩

/-!
## C2: sphere generator specification
-/

/-- Every sphere vertex position has Euclidean norm `|radius|`: the position
is `radius` times a unit direction built from `sin`/`cos`. -/
theorem sphereVertices_norm (radius : ℝ) (segments rings : Nat) :
    ∀ v ∈ sphereVertices radius segments rings,
      norm3 v.position = |radius| := by
  intro v hv
  simp only [sphereVertices, List.mem_flatMap, List.mem_map, List.mem_range] at hv
  obtain ⟨ring, hring, seg, hseg, rfl⟩ := hv
  simp only [sphereVertex, norm3]
  have h1 := Real.sin_sq_add_cos_sq (2 * Real.pi * (seg : ℝ) / (segments : ℝ))
  have h2 := Real.sin_sq_add_cos_sq (Real.pi * (ring : ℝ) / (rings : ℝ))
  convert Real.sqrt_sq_eq_abs radius using 2
  linear_combination
    (radius ^ 2 * Real.sin (Real.pi * (ring : ℝ) / (rings : ℝ)) ^ 2) * h1 +
      radius ^ 2 * h2

/-- C2 (amended): `candid_mesh_create_sphere` returns `InvalidArgument` when
`segments < 3` or `rings < 2`; otherwise (non-null out, successful
allocations) it returns `Success` with `(segments+1)*(rings+1)` vertices and
`segments*rings*6` indices, and every vertex position has norm `|radius|`
(equal to `radius` whenever `radius` is nonnegative). -/
theorem create_sphere_spec :
    (∀ (radius : ℝ) (segments rings : Nat), segments < 3 ∨ rings < 2 →
      candid_mesh_create_sphere radius segments rings false (true, true) =
        (CANDID_ERROR_INVALID_ARGUMENT, none, 0)) ∧
    (∀ (radius : ℝ) (segments rings : Nat), 3 ≤ segments → 2 ≤ rings →
      candid_mesh_create_sphere radius segments rings false (true, true) =
        (CANDID_SUCCESS,
          some { vertices := some (sphereVertices radius segments rings),
                 indices := some (sphereIndices segments rings),
                 index_format := .CANDID_INDEX_FORMAT_UINT16 }, 0) ∧
      (sphereVertices radius segments rings).length =
        (segments + 1) * (rings + 1) ∧
      (sphereIndices segments rings).length = segments * rings * 6) ∧
    (∀ (radius : ℝ) (segments rings : Nat),
      ∀ v ∈ sphereVertices radius segments rings,
        norm3 v.position = |radius|) := by
  refine ⟨?_, ?_, sphereVertices_norm⟩
  · intro radius segments rings hg
    simp [candid_mesh_create_sphere, hg]
  · intro radius segments rings hseg hring
    have h1 : ¬ segments < 3 := by omega
    have h2 : ¬ rings < 2 := by omega
    exact ⟨by simp [candid_mesh_create_sphere, h1, h2],
      sphereVertices_length radius segments rings,
      sphereIndices_length segments rings⟩

/-- C2 counterexample to the claim as stated: at `radius = -1` the first
sphere vertex has position `(0, -1, 0)` with norm `1`, which is not equal to
the radius `-1`. -/
theorem create_sphere_norm_not_radius :
    sphereVertex (-1) 3 2 0 0 ∈ sphereVertices (-1) 3 2 ∧
      norm3 (sphereVertex (-1) 3 2 0 0).position ≠ (-1 : ℝ) := by
  constructor
  · simp only [sphereVertices, List.mem_flatMap, List.mem_map, List.mem_range]
    exact ⟨0, by norm_num, 0, by norm_num, rfl⟩
  · simp only [sphereVertex, norm3]
    norm_num [Real.sqrt_eq_one]

/-- Witness for C2 (amended): the unit sphere with 3 segments and 2 rings. -/
theorem create_sphere_spec_witness :
    ((3 : Nat) ≤ 3 ∧ (2 : Nat) ≤ 2) ∧
      (sphereVertices 1 3 2).length = (3 + 1) * (2 + 1) :=
  ⟨⟨le_refl 3, le_refl 2⟩,
   (create_sphere_spec.2.1 1 3 2 (le_refl 3) (le_refl 2)).2.1⟩

/-!
## C3: idempotence of calculate_normals
-/

/-- Unfolding of the normal-reset pass on a cons cell. -/
theorem zeroNormals_cons (v : Candid_Vertex) (t : List Candid_Vertex) :
    zeroNormals (v :: t) =
      { v with normal := ⟨0, 0, 0⟩ } :: zeroNormals t := rfl

/-- Resetting normals after the normalization pass equals resetting them
directly: normalization touches only the normal field. -/
theorem zeroNormals_normalizePass (l : List Candid_Vertex) :
    zeroNormals (l.map normalizeNormal) = zeroNormals l := by
  induction l with
  | nil => rfl
  | cons v t ih =>
      rw [List.map_cons, zeroNormals_cons, zeroNormals_cons, ih]
      congr 1
      by_cases hc : norm3 v.normal > 1e-6 <;> simp [normalizeNormal, hc]

/-- Resetting normals after one accumulation step equals resetting them
directly: accumulation touches only the normal field. -/
theorem zeroNormals_addToNormal (vs : List Candid_Vertex) (i : Nat)
    (n : Candid_Vec3) :
    zeroNormals (addToNormal vs i n) = zeroNormals vs := by
  induction vs generalizing i with
  | nil => rfl
  | cons v t ih =>
      cases i with
      | zero => rfl
      | succ j =>
          show zeroNormals (v :: addToNormal t j n) = zeroNormals (v :: t)
          rw [zeroNormals_cons, zeroNormals_cons, ih j]

/-- Resetting normals after the whole accumulation loop equals resetting
them directly. -/
theorem zeroNormals_accumFaceNormals :
    ∀ (idx : List Nat) (vs : List Candid_Vertex),
      zeroNormals (accumFaceNormals vs idx) = zeroNormals vs
  | i0 :: i1 :: i2 :: rest, vs => by
      simp only [accumFaceNormals]
      rw [zeroNormals_accumFaceNormals rest, zeroNormals_addToNormal,
        zeroNormals_addToNormal, zeroNormals_addToNormal]
  | [], vs => rfl
  | [i0], vs => rfl
  | [i0, i1], vs => rfl

/-- The normal-reset pass is idempotent. -/
theorem zeroNormals_zeroNormals (l : List Candid_Vertex) :
    zeroNormals (zeroNormals l) = zeroNormals l := by
  induction l with
  | nil => rfl
  | cons v t ih => simp only [zeroNormals_cons, ih]

/-- The three-pass normal recomputation is idempotent: its output depends
only on the positions and indices, which it leaves unchanged. -/
theorem recomputeNormals_idem (idx : List Nat) (vs : List Candid_Vertex) :
    recomputeNormals idx (recomputeNormals idx vs) = recomputeNormals idx vs := by
  unfold recomputeNormals
  rw [zeroNormals_normalizePass, zeroNormals_accumFaceNormals,
    zeroNormals_zeroNormals]

/-- C3: `candid_mesh_calculate_normals` is idempotent: on a mesh with
non-null vertex and index buffers the first call succeeds, and a second call
returns `Success` with exactly the mesh produced by the first call (in
particular the same per-vertex normals), since each application recomputes
the normals solely from the unchanged positions and indices. -/
theorem calculate_normals_idempotent (data : Candid_MeshData)
    (hv : data.vertices.isSome = true) (hi : data.indices.isSome = true) :
    (candid_mesh_calculate_normals data).1 = CANDID_SUCCESS ∧
      candid_mesh_calculate_normals (candid_mesh_calculate_normals data).2 =
        (CANDID_SUCCESS, (candid_mesh_calculate_normals data).2) := by
  obtain ⟨ov, oi, fmt⟩ := data
  obtain ⟨vs, rfl⟩ := Option.isSome_iff_exists.mp hv
  obtain ⟨idx, rfl⟩ := Option.isSome_iff_exists.mp hi
  refine ⟨?_, ?_⟩
  · simp only [candid_mesh_calculate_normals]
  · simp only [candid_mesh_calculate_normals]
    rw [recomputeNormals_idem]

/-- Witness for C3: a one-vertex mesh with an empty (non-null) index buffer. -/
theorem calculate_normals_idempotent_witness :
    ((some [zeroVertex] : Option (List Candid_Vertex)).isSome = true ∧
      (some ([] : List Nat)).isSome = true) ∧
      candid_mesh_calculate_normals
          (candid_mesh_calculate_normals
            { vertices := some [zeroVertex], indices := some [],
              index_format := .CANDID_INDEX_FORMAT_UINT16 }).2 =
        (CANDID_SUCCESS,
          (candid_mesh_calculate_normals
            { vertices := some [zeroVertex], indices := some [],
              index_format := .CANDID_INDEX_FORMAT_UINT16 }).2) :=
  ⟨⟨rfl, rfl⟩,
   (calculate_normals_idempotent
     { vertices := some [zeroVertex], indices := some [],
       index_format := .CANDID_INDEX_FORMAT_UINT16 } rfl rfl).2⟩

/-!
## C4: tangent orthonormality
-/

/-- The Gram-Schmidt residual `t - n (n . t)` is orthogonal to a unit
vector `n`. -/
theorem dot3_gramSchmidt (n t : Candid_Vec3)
    (hn2 : n.x * n.x + n.y * n.y + n.z * n.z = 1) :
    dot3 n ⟨t.x - n.x * dot3 n t, t.y - n.y * dot3 n t,
            t.z - n.z * dot3 n t⟩ = 0 := by
  unfold dot3
  linear_combination (-(n.x * t.x + n.y * t.y + n.z * t.z)) * hn2

/-- Scaling a vector orthogonal to `n` keeps it orthogonal to `n`. -/
theorem dot3_div_of_dot3_eq_zero (n v : Candid_Vec3) (L : ℝ)
    (h : dot3 n v = 0) :
    dot3 n ⟨v.x / L, v.y / L, v.z / L⟩ = 0 := by
  unfold dot3 at h ⊢
  have e : n.x * (v.x / L) + n.y * (v.y / L) + n.z * (v.z / L) =
      (n.x * v.x + n.y * v.y + n.z * v.z) / L := by ring
  rw [e, h, zero_div]

/-- Dividing a vector of positive length by its length yields a unit
vector. -/
theorem norm3_div_self (v : Candid_Vec3) (hv : 0 < norm3 v) :
    norm3 ⟨v.x / norm3 v, v.y / norm3 v, v.z / norm3 v⟩ = 1 := by
  have h0 : 0 ≤ v.x * v.x + v.y * v.y + v.z * v.z :=
    add_nonneg (add_nonneg (mul_self_nonneg _) (mul_self_nonneg _))
      (mul_self_nonneg _)
  have hsq : v.x * v.x + v.y * v.y + v.z * v.z = norm3 v ^ 2 := by
    unfold norm3
    rw [Real.sq_sqrt h0]
  have hne : norm3 v ≠ 0 := ne_of_gt hv
  have e : v.x / norm3 v * (v.x / norm3 v) + v.y / norm3 v * (v.y / norm3 v) +
      v.z / norm3 v * (v.z / norm3 v) = 1 := by
    field_simp
    linear_combination hsq
  unfold norm3
  unfold norm3 at e
  rw [e, Real.sqrt_one]

/-- The final per-vertex tangent of `calculate_tangents` is orthogonal to a
unit normal and itself unit length whenever the orthogonalized accumulated
tangent is longer than the `1e-6` threshold, and its `w` is the handedness
sign. -/
theorem tangentFor_orthonormal (n t t2v : Candid_Vec3)
    (hn : norm3 n = 1)
    (hlen : norm3 ⟨t.x - n.x * dot3 n t, t.y - n.y * dot3 n t,
                   t.z - n.z * dot3 n t⟩ > 1e-6) :
    dot3 n ⟨(tangentFor n t t2v).x, (tangentFor n t t2v).y,
            (tangentFor n t t2v).z⟩ = 0 ∧
    norm3 ⟨(tangentFor n t t2v).x, (tangentFor n t t2v).y,
           (tangentFor n t t2v).z⟩ = 1 ∧
    (tangentFor n t t2v).w =
      if dot3 (cross3 n t) t2v < 0 then -1 else 1 := by
  have hn2 : n.x * n.x + n.y * n.y + n.z * n.z = 1 := by
    have h := hn
    unfold norm3 at h
    exact Real.sqrt_eq_one.mp h
  have hpos : (0 : ℝ) <
      norm3 ⟨t.x - n.x * dot3 n t, t.y - n.y * dot3 n t,
             t.z - n.z * dot3 n t⟩ :=
    lt_trans (by norm_num) hlen
  have hres : tangentFor n t t2v =
      ⟨(t.x - n.x * dot3 n t) /
          norm3 ⟨t.x - n.x * dot3 n t, t.y - n.y * dot3 n t,
                 t.z - n.z * dot3 n t⟩,
       (t.y - n.y * dot3 n t) /
          norm3 ⟨t.x - n.x * dot3 n t, t.y - n.y * dot3 n t,
                 t.z - n.z * dot3 n t⟩,
       (t.z - n.z * dot3 n t) /
          norm3 ⟨t.x - n.x * dot3 n t, t.y - n.y * dot3 n t,
                 t.z - n.z * dot3 n t⟩,
       if dot3 (cross3 n t) t2v < 0 then -1 else 1⟩ := by
    simp only [tangentFor]
    rw [if_pos hlen]
  rw [hres]
  exact ⟨dot3_div_of_dot3_eq_zero n _ _ (dot3_gramSchmidt n t hn2),
    norm3_div_self ⟨t.x - n.x * dot3 n t, t.y - n.y * dot3 n t,
      t.z - n.z * dot3 n t⟩ hpos, rfl⟩

/-- Evaluation of `candid_mesh_calculate_tangents` on non-null buffers with
successful temporary allocations. -/
theorem calculate_tangents_eq (vs : List Candid_Vertex) (idx : List Nat)
    (fmt : Candid_IndexFormat) :
    candid_mesh_calculate_tangents ⟨some vs, some idx, fmt⟩ (true, true) =
      (CANDID_SUCCESS,
        { vertices := some (applyTangents vs
            (accumTangents vs idx
              (List.replicate vs.length ⟨0, 0, 0⟩,
               List.replicate vs.length ⟨0, 0, 0⟩)).1
            (accumTangents vs idx
              (List.replicate vs.length ⟨0, 0, 0⟩,
               List.replicate vs.length ⟨0, 0, 0⟩)).2),
          indices := some idx, index_format := fmt }) := rfl

/-- Element `i` of the final tangent-writing loop. -/
theorem applyTangents_getD (vs : List Candid_Vertex)
    (t1 t2 : List Candid_Vec3) (i : Nat) (h : i < vs.length) :
    (applyTangents vs t1 t2).getD i default =
      { vs.getD i default with
        tangent := tangentFor (vs.getD i default).normal
          (t1.getD i default) (t2.getD i default) } := by
  unfold applyTangents
  have h1 : i < ((List.range vs.length).map fun j =>
      { vs.getD j default with
        tangent := tangentFor (vs.getD j default).normal
          (t1.getD j default) (t2.getD j default) }).length := by
    simpa using h
  rw [List.getD_eq_getElem _ _ h1]
  simp [List.getElem_map, List.getElem_range]

/-- C4: with unit per-vertex normals, every vertex whose orthogonalized
accumulated tangent exceeds the `1e-6` threshold receives from
`candid_mesh_calculate_tangents` a tangent whose xyz part is orthogonal to
the normal and unit length, with `w = -1` exactly when
`cross(normal, accumulated tangent) . bitangent-accumulator` is negative
(`+1` otherwise); and the tangent written for vertex `i` is exactly
`tangentFor` of the vertex normal and the two accumulators. -/
theorem calculate_tangents_orthonormal :
    (∀ (n t t2v : Candid_Vec3), norm3 n = 1 →
      norm3 ⟨t.x - n.x * dot3 n t, t.y - n.y * dot3 n t,
             t.z - n.z * dot3 n t⟩ > 1e-6 →
      dot3 n ⟨(tangentFor n t t2v).x, (tangentFor n t t2v).y,
              (tangentFor n t t2v).z⟩ = 0 ∧
      norm3 ⟨(tangentFor n t t2v).x, (tangentFor n t t2v).y,
             (tangentFor n t t2v).z⟩ = 1 ∧
      (tangentFor n t t2v).w =
        if dot3 (cross3 n t) t2v < 0 then -1 else 1) ∧
    (∀ (data : Candid_MeshData) (vs : List Candid_Vertex) (idx : List Nat),
      data.vertices = some vs → data.indices = some idx →
      (candid_mesh_calculate_tangents data (true, true)).1 = CANDID_SUCCESS ∧
      ∀ i : Nat, i < vs.length →
        (((candid_mesh_calculate_tangents data (true, true)).2.vertices.getD
            []).getD i default).tangent =
          tangentFor (vs.getD i default).normal
            ((accumTangents vs idx
              (List.replicate vs.length ⟨0, 0, 0⟩,
               List.replicate vs.length ⟨0, 0, 0⟩)).1.getD i default)
            ((accumTangents vs idx
              (List.replicate vs.length ⟨0, 0, 0⟩,
               List.replicate vs.length ⟨0, 0, 0⟩)).2.getD i default)) := by
  refine ⟨tangentFor_orthonormal, ?_⟩
  intro data vs idx hv hi
  obtain ⟨ov, oi, fmt⟩ := data
  cases hv
  cases hi
  refine ⟨by rw [calculate_tangents_eq], ?_⟩
  intro i hilt
  rw [calculate_tangents_eq]
  simp only [Option.getD_some]
  rw [applyTangents_getD vs _ _ i hilt]

/-- Witness for C4: normal `(0,0,1)`, accumulated tangent `(1,0,0)`,
bitangent accumulator `(0,1,0)`. -/
theorem calculate_tangents_orthonormal_witness :
    (norm3 ⟨0, 0, 1⟩ = 1 ∧
      norm3 ⟨(1 : ℝ) - 0 * dot3 ⟨0, 0, 1⟩ ⟨1, 0, 0⟩,
             0 - 0 * dot3 ⟨0, 0, 1⟩ ⟨1, 0, 0⟩,
             0 - 1 * dot3 ⟨0, 0, 1⟩ ⟨1, 0, 0⟩⟩ > 1e-6) ∧
      dot3 ⟨0, 0, 1⟩
          ⟨(tangentFor ⟨0, 0, 1⟩ ⟨1, 0, 0⟩ ⟨0, 1, 0⟩).x,
           (tangentFor ⟨0, 0, 1⟩ ⟨1, 0, 0⟩ ⟨0, 1, 0⟩).y,
           (tangentFor ⟨0, 0, 1⟩ ⟨1, 0, 0⟩ ⟨0, 1, 0⟩).z⟩ = 0 := by
  have hn : norm3 (⟨0, 0, 1⟩ : Candid_Vec3) = 1 := by
    unfold norm3
    norm_num
  have hlen : norm3 ⟨(1 : ℝ) - 0 * dot3 ⟨0, 0, 1⟩ ⟨1, 0, 0⟩,
      0 - 0 * dot3 ⟨0, 0, 1⟩ ⟨1, 0, 0⟩,
      0 - 1 * dot3 ⟨0, 0, 1⟩ ⟨1, 0, 0⟩⟩ > 1e-6 := by
    unfold norm3 dot3
    norm_num
  exact ⟨⟨hn, hlen⟩,
    (calculate_tangents_orthonormal.1 ⟨0, 0, 1⟩ ⟨1, 0, 0⟩ ⟨0, 1, 0⟩ hn hlen).1⟩
